import Mathlib

/-!
Shallow embedding of the RPC/Sync coordination layer of `wacli`
(`internal/rpc/server.go`), as needed to settle the frozen claims about its
specification.

Modelling conventions:
* The `store.DB` and `WAClient` collaborators are oracles: records of pure
  functions giving the result each collaborator call would return.  Every
  collaborator call a handler makes is additionally recorded in an explicit
  trace (`StoreCall` list), so "the handler does not touch the Store" and
  "the Chat upsert happens before the Message upsert" are statable.
* `time.Time` values are modelled as `Nat` instants; rendering/parsing of
  RFC 3339 strings is delegated to oracle functions (Go stdlib behaviour).
* JSON decoding of a request body is modelled by its outcome
  (`Except String α`), quantified over in theorems about "any body".
* `wa.ParseUserOrJID` (repository code outside `src/`) is an oracle
  parameter of the send environment; no claim depends on its internals.
-/

namespace Wacli

/-- Embeds `types.JID` from the whatsmeow library: the parts the server inspects. -/
structure JID where
  user : String
  server : String
deriving Repr, DecidableEq

/-- Embeds `types.GroupServer` from whatsmeow. -/
def GroupServer : String := "g.us"

/-- Embeds `types.BroadcastServer` from whatsmeow. -/
def BroadcastServer : String := "broadcast"

/-- Embeds `types.JID.IsBroadcastList` from whatsmeow: on the broadcast server and
not the status broadcast pseudo-user. -/
def JID.isBroadcastList (j : JID) : Bool :=
  j.server == BroadcastServer && j.user != "status"

/-- Embeds `types.JID.String` (canonical `user@server` rendering; the server only
passes it through to the Store). -/
def JID.render (j : JID) : String := j.user ++ "@" ++ j.server

/-- Embeds `store.Chat` as read back by `ListChats`. -/
structure Chat where
  jid : String
  kind : String
  name : String
  lastMessageTS : Nat
deriving Repr, DecidableEq

/-- Embeds `store.Message` as read back by `ListMessages` / `SearchMessages`. -/
structure Message where
  chatJID : String
  chatName : String
  msgID : String
  senderJID : String
  timestamp : Nat
  fromMe : Bool
  text : String
  displayText : String
  mediaType : String
deriving Repr, DecidableEq

/-- Embeds `store.UpsertMessageParams`. -/
structure UpsertMessageParams where
  chatJID : String
  chatName : String
  msgID : String
  senderJID : String
  senderName : String
  timestamp : Nat
  fromMe : Bool
  text : String
deriving Repr, DecidableEq

/-- Embeds `store.ListMessagesParams`. -/
structure ListMessagesParams where
  chatJID : String
  limit : Int
  before : Option Nat
  after : Option Nat
deriving Repr, DecidableEq

/-- Oracle for the `store.DB` collaborator: the result each call returns.
`upsertChat`/`upsertMessage` results exist in the oracle but are discarded
by the send handler (`_ =` in the source). -/
structure StoreBehavior where
  listChats : String → Int → Except String (List Chat)
  countMessages : Except String Int
  hasFTS : Bool
  listMessages : ListMessagesParams → Except String (List Message)
  upsertChat : String → String → String → Nat → Option String
  upsertMessage : UpsertMessageParams → Option String

/-- Oracle for the bound `WAClient` collaborator. -/
structure WABehavior where
  isConnected : Bool
  sendText : JID → String → Except String String
  resolveChatName : JID → String → String

/-- One collaborator call made by a handler, recorded in order. -/
inductive StoreCall
  | listChats (query : String) (limit : Int)
  | countMessages
  | hasFTS
  | listMessages (p : ListMessagesParams)
  | upsertChat (jid kind name : String) (ts : Nat)
  | upsertMessage (p : UpsertMessageParams)
deriving Repr, DecidableEq

/-- Embeds `jsonResponse`: the uniform error envelope written by `writeError`. -/
structure JsonResponse where
  ok : Bool
  error : String
deriving Repr, DecidableEq

/-- Embeds `sendRequest`: the decoded JSON body of a `/send` request.  The source
field `To` is spelled `toField` because `to` is reserved in Lean. -/
structure SendRequest where
  toField : String
  message : String
  chatJID : String
deriving Repr, DecidableEq

/-- Embeds `sendResponse`: body of every non-405 `/send` response. -/
structure SendResponse where
  ok : Bool
  messageID : String
  error : String
deriving Repr, DecidableEq

/-- Body of a `/send` response: `writeError` envelope (405 path) or a
`sendResponse`. -/
inductive SendBody
  | env (e : JsonResponse)
  | resp (r : SendResponse)
deriving Repr, DecidableEq

/-- Outcome of one `handleSend` invocation: HTTP status, JSON body, and the
ordered trace of Store calls it performed. -/
structure SendOutcome where
  status : Nat
  body : SendBody
  calls : List StoreCall
deriving Repr, DecidableEq

/-- Environment of one `/send` request. -/
structure SendEnv where
  wa : Option WABehavior
  db : StoreBehavior
  body : Except String SendRequest
  parseUserOrJID : String → Except String JID
  now : Nat

/-- The chat-kind classification inside `handleSend`:
`kind := "dm"; if group server then "group" else if broadcast list then
"broadcast"`. -/
def chatKindOf (j : JID) : String :=
  if j.server = GroupServer then "group"
  else if j.isBroadcastList then "broadcast"
  else "dm"

/-- Embeds `strings.TrimSpace` structurally (character-level; Go trims
Unicode white space, the callers here only meet ASCII). -/
def trimSpace (s : String) : String :=
  ⟨((s.data.dropWhile Char.isWhitespace).reverse.dropWhile
      Char.isWhitespace).reverse⟩

/-- The recipient resolution at the top of `handleSend`'s body:
`to := TrimSpace(req.To); if to == "" { to = TrimSpace(req.ChatJID) }`. -/
def resolvedTo (req : SendRequest) : String :=
  let toStr := trimSpace req.toField
  if toStr = "" then trimSpace req.chatJID else toStr

/-- Body of `handleSend` after the connected client `c` has been
snapshotted (source lines 427–504). -/
def handleSendBody (env : SendEnv) (c : WABehavior) : SendOutcome :=
  match env.body with
  | .error e => ⟨400, .resp ⟨false, "", "invalid JSON: " ++ e⟩, []⟩
  | .ok req =>
    let toStr := resolvedTo req
    if toStr = "" then
      ⟨400, .resp ⟨false, "", "to or chat_jid is required"⟩, []⟩
    else if (trimSpace req.message) = "" then
      ⟨400, .resp ⟨false, "", "message is required"⟩, []⟩
    else
      match env.parseUserOrJID toStr with
      | .error e => ⟨400, .resp ⟨false, "", "invalid recipient: " ++ e⟩, []⟩
      | .ok toJID =>
        match c.sendText toJID req.message with
        | .error e => ⟨500, .resp ⟨false, "", "send failed: " ++ e⟩, []⟩
        | .ok msgID =>
          let now := env.now
          let chatName := c.resolveChatName toJID ""
          let kind := chatKindOf toJID
          -- `_ = s.db.UpsertChat(...)`, `_ = s.db.UpsertMessage(...)`:
          -- both results are discarded by the source.
          ⟨200, .resp ⟨true, msgID, ""⟩,
            [.upsertChat toJID.render kind chatName now,
             .upsertMessage ⟨toJID.render, chatName, msgID, "", "me", now,
                             true, req.message⟩]⟩

/-- Embeds `handleSend` (source lines 409–504). -/
def handleSend (env : SendEnv) (method : String) : SendOutcome :=
  if method ≠ "POST" then
    ⟨405, .env ⟨false, "method not allowed"⟩, []⟩
  else
    -- `if waClient == nil || !waClient.IsConnected()`
    match env.wa with
    | none => ⟨503, .resp ⟨false, "", "WhatsApp not connected"⟩, []⟩
    | some c =>
      if !c.isConnected then
        ⟨503, .resp ⟨false, "", "WhatsApp not connected"⟩, []⟩
      else
        handleSendBody env c

/-- Outcome of `handlePing`: it writes `{ok:true,pong:true}` with 200 and
never reads the request. -/
structure PingOutcome where
  status : Nat
  ok : Bool
  pong : Bool
deriving Repr, DecidableEq

/-- Embeds `handlePing` (source lines 154–159): ignores the request entirely,
including its method. -/
def handlePing (_method : String) : PingOutcome :=
  ⟨200, true, true⟩

/-- Server-resident state (`rpc.Server`).  `server` models the `s.server`
pointer field: `none` until `Start` assigns it (`s.server == nil` is the
exact test `Stop` performs).  The listen address, Store and start time are
fixed at construction; `wa` is replaceable via `SetWA`; `syncRunning` is
the atomic flag. -/
structure ServerState where
  addr : String
  db : StoreBehavior
  wa : Option WABehavior
  syncRunning : Bool
  server : Option Unit

/-- Embeds `Options` for `New`: `db` is `Option` because the Go field is a
pointer that may be nil. -/
structure ServerOptions where
  addr : String
  db : Option StoreBehavior
  wa : Option WABehavior

/-- Embeds `New` (source lines 53–69): defaults the address, requires a Store,
returns a server with `s.server` unset and the sync flag zero-valued. -/
def newServer (opts : ServerOptions) : Except String ServerState :=
  let addr := if opts.addr = "" then "localhost:5555" else opts.addr
  match opts.db with
  | none => .error "db is required"
  | some db => .ok ⟨addr, db, opts.wa, false, none⟩

/-- Embeds `SetWA` (source lines 72–76). -/
def setWA (s : ServerState) (wa : Option WABehavior) : ServerState :=
  { s with wa := wa }

/-- Embeds `SetSyncRunning` (source lines 79–81). -/
def setSyncRunning (s : ServerState) (running : Bool) : ServerState :=
  { s with syncRunning := running }

/-- Externally visible side effects of `Start`. -/
inductive StartEffect
  | logStarting
  | serveInBackground
deriving Repr, DecidableEq

/-- Embeds `Start` (source lines 84–115).  The mux is built and `s.server` is
assigned BEFORE `net.Listen` is attempted; on listen failure the wrapped
error is returned with `s.server` already non-nil.  On success the serve
loop is spawned in the background and `Start` returns nil immediately.
`listenResult` is the oracle outcome of `net.Listen("tcp", s.addr)`. -/
def start (s : ServerState) (listenResult : Except String Unit) :
    Except String Unit × List StartEffect × ServerState :=
  let s := { s with server := some () }
  match listenResult with
  | .error e => (.error ("listen " ++ s.addr ++ ": " ++ e), [], s)
  | .ok _ => (.ok (), [.logStarting, .serveInBackground], s)

/-- Externally visible side effects of `Stop`. -/
inductive StopEffect
  | logStopping
  | shutdown
deriving Repr, DecidableEq

/-- Embeds `Stop` (source lines 118–124): if `s.server == nil` it returns nil at
once with no effect; otherwise it logs and returns
`s.server.Shutdown(ctx)`, whose result (for the deadline `ctx` carries) is
the oracle `shutdownResult`.  `Stop` mutates no field of `s`. -/
def stop (s : ServerState) (_deadline : Nat) (shutdownResult : Option String) :
    Option String × List StopEffect × ServerState :=
  match s.server with
  | none => (none, [], s)
  | some _ => (shutdownResult, [.logStopping, .shutdown], s)

/-- Embeds `statusResponse`. -/
structure StatusResponse where
  ok : Bool
  syncRunning : Bool
  waConnected : Bool
  chatsCount : Int
  messagesCount : Int
  uptime : String
  ftsEnabled : Bool
deriving Repr, DecidableEq

/-- Body of a `/status` response. -/
inductive StatusBody
  | env (e : JsonResponse)
  | resp (r : StatusResponse)
deriving Repr, DecidableEq

/-- Outcome of one `handleStatus` invocation. -/
structure StatusOutcome where
  status : Nat
  body : StatusBody
  calls : List StoreCall
deriving Repr, DecidableEq

/-- The connectivity probe of `handleStatus`:
`waConnected := false; if wa != nil { waConnected = wa.IsConnected() }`. -/
def waConnectedOf : Option WABehavior → Bool
  | none => false
  | some c => c.isConnected

/-- Embeds `handleStatus` (source lines 171–206).  `uptime` is the rendered
`time.Since(s.startTime)` string (Go stdlib, passed as an oracle). -/
def handleStatus (s : ServerState) (uptime : String) (method : String) :
    StatusOutcome :=
  if method ≠ "GET" then
    ⟨405, .env ⟨false, "method not allowed"⟩, []⟩
  else
    let waConnected := waConnectedOf s.wa
    -- `var chatsCount int64` then set only when `err == nil`
    let chatsCount : Int :=
      match s.db.listChats "" 100000 with
      | .ok chats => (chats.length : Int)
      | .error _ => 0
    -- `msgsCount, _ := s.db.CountMessages()`
    let msgsCount : Int :=
      match s.db.countMessages with
      | .ok n => n
      | .error _ => 0
    ⟨200,
     .resp ⟨true, s.syncRunning, waConnected, chatsCount, msgsCount,
            uptime, s.db.hasFTS⟩,
     [.listChats "" 100000, .countMessages, .hasFTS]⟩

/-- Embeds `messageJSON`: a Message rendered for the wire, timestamps formatted
by the oracle `fmt`. -/
structure MessageJSON where
  chatJID : String
  chatName : String
  msgID : String
  senderJID : String
  timestamp : String
  fromMe : Bool
  text : String
  displayText : String
  mediaType : String
deriving Repr, DecidableEq

/-- The per-element conversion loop shared by `handleMessages` and
`handleSearch`. -/
def toMessageJSON (fmt : Nat → String) (m : Message) : MessageJSON :=
  ⟨m.chatJID, m.chatName, m.msgID, m.senderJID, fmt m.timestamp,
   m.fromMe, m.text, m.displayText, m.mediaType⟩

/-- Body of a `/messages` response. -/
inductive MessagesBody
  | env (e : JsonResponse)
  | resp (msgs : List MessageJSON)
deriving Repr, DecidableEq

/-- Outcome of one `handleMessages` invocation. -/
structure MessagesOutcome where
  status : Nat
  body : MessagesBody
  calls : List StoreCall
deriving Repr, DecidableEq

/-- The query string of a `/messages` request: `r.URL.Query().Get(k)`
yields `""` for an absent key, so each field is a plain string. -/
structure MessagesQuery where
  chatJID : String
  limit : String
  before : String
  after : String
deriving Repr, DecidableEq

/-- The digit loop of `strconv.Atoi`: a run of decimal digits folded into
an accumulator, `none` on any non-digit. -/
def decDigits : List Char → Nat → Option Nat
  | [], acc => some acc
  | c :: cs, acc =>
    if c.isDigit then decDigits cs (10 * acc + (c.toNat - 48))
    else none

/-- Embedding of `strconv.Atoi`: optional single sign, then at least one
decimal digit; anything else (the empty string included) is an error,
modelled as `none`. -/
def atoi (s : String) : Option Int :=
  match s.data with
  | [] => none
  | '-' :: [] => none
  | '-' :: c :: cs => (decDigits (c :: cs) 0).map (fun n => -(n : Int))
  | '+' :: [] => none
  | '+' :: c :: cs => (decDigits (c :: cs) 0).map (fun n => (n : Int))
  | cs => (decDigits cs 0).map (fun n => (n : Int))

/-- The `ListMessagesParams` that `handleMessages` builds from the query
(source lines 283–305).  `atoi` embeds `strconv.Atoi` (both reject the
empty string and non-numeric text); `parseRFC3339` is the oracle for
`time.Parse(time.RFC3339, ·)`, `none` meaning a parse error. -/
def messagesParamsOf (parseRFC3339 : String → Option Nat)
    (q : MessagesQuery) : ListMessagesParams :=
  let limit : Int :=
    match atoi q.limit with
    | some l => if l > 0 then l else 50
    | none => 50
  let before := if q.before ≠ "" then parseRFC3339 q.before else none
  let after := if q.after ≠ "" then parseRFC3339 q.after else none
  ⟨q.chatJID, limit, before, after⟩

/-- Embeds `handleMessages` (source lines 271–327). -/
def handleMessages (db : StoreBehavior) (parseRFC3339 : String → Option Nat)
    (fmt : Nat → String) (q : MessagesQuery) (method : String) :
    MessagesOutcome :=
  if method ≠ "GET" then
    ⟨405, .env ⟨false, "method not allowed"⟩, []⟩
  else if q.chatJID = "" then
    ⟨400, .env ⟨false, "chat_jid is required"⟩, []⟩
  else
    let p := messagesParamsOf parseRFC3339 q
    match db.listMessages p with
    | .error e => ⟨500, .env ⟨false, e⟩, [.listMessages p]⟩
    | .ok msgs =>
      ⟨200, .resp (msgs.map (toMessageJSON fmt)), [.listMessages p]⟩

/-- Modelled from the spec: `store.ListChats` lives in package
`internal/store`, which is not under `src/`.  Per §6
"`ListChats(filter, limit) → (Chat[], error)`" and §4.3 (an optional
limit caps the returned sequence), with an empty filter it returns the
stored chats, at most `limit` of them. -/
def specListChats (allChats : List Chat) (_filter : String) (limit : Int) :
    Except String (List Chat) :=
  .ok (allChats.take limit.toNat)

/-- A concrete, always-succeeding Store oracle, for witnesses. -/
def dbStub : StoreBehavior :=
  ⟨fun _ _ => .ok [], .ok 0, false, fun _ => .ok [],
   fun _ _ _ _ => none, fun _ => none⟩

/-- A concrete Store oracle whose `ListChats` fails, for witnesses. -/
def dbChatsFail : StoreBehavior :=
  { dbStub with listChats := fun _ _ => .error "db is locked" }

/-- A concrete Store oracle backed by the spec-modelled `ListChats` over a
single stored chat, with `CountMessages` failing, for witnesses. -/
def dbSpecOneChat : StoreBehavior :=
  { dbStub with
      listChats := specListChats [⟨"123@s.whatsapp.net", "dm", "A", 0⟩],
      countMessages := .error "no such table" }

/-- A concrete connected client oracle, for witnesses: behaves like the
test mock (`mockWA`). -/
def waMock : WABehavior :=
  ⟨true, fun _ _ => .ok "test_msg_id", fun _ _ => "Test Chat"⟩

/-- A concrete disconnected client oracle, for witnesses. -/
def waDown : WABehavior :=
  ⟨false, fun _ _ => .ok "test_msg_id", fun _ _ => "Test Chat"⟩

/-- A concrete freshly-constructed server (`s.server == nil`), for
witnesses and counterexamples. -/
def serverCreated : ServerState :=
  ⟨"127.0.0.1:5555", dbStub, none, false, none⟩

/-- A concrete recipient parser, for witnesses: sends every string to the
default-server JID, as `wa.ParseUserOrJID` does for bare phone numbers. -/
def parseStub (toStr : String) : Except String JID :=
  .ok ⟨toStr, "s.whatsapp.net"⟩

/-- A concrete `/send` environment with a connected mock client and the
test body `{"to":"123456789","message":"Hello from RPC!"}`, for
witnesses. -/
def sendEnvMock : SendEnv :=
  ⟨some waMock, dbStub, .ok ⟨"123456789", "Hello from RPC!", ""⟩,
   parseStub, 7⟩

/-- The sequence of `SetSyncRunning` calls applied to a server, oldest
first. -/
def applySyncCalls (s : ServerState) (l : List Bool) : ServerState :=
  l.foldl setSyncRunning s

theorem getLast?_getD_cons (b x : Bool) (t : List Bool) :
    (b :: t).getLast?.getD x = t.getLast?.getD b := by
  cases t with
  | nil => rfl
  | cons c t' =>
    rw [List.getLast?_cons_cons]
    obtain ⟨y, hy⟩ := Option.isSome_iff_exists.mp
      (List.getLast?_isSome.mpr (List.cons_ne_nil c t'))
    rw [hy]
    rfl

theorem applySyncCalls_syncRunning (l : List Bool) (s : ServerState) :
    (applySyncCalls s l).syncRunning = l.getLast?.getD s.syncRunning := by
  induction l generalizing s with
  | nil => rfl
  | cons b t ih =>
    show (applySyncCalls (setSyncRunning s b) t).syncRunning = _
    rw [ih, getLast?_getD_cons]
    rfl

theorem applySyncCalls_wa (l : List Bool) (s : ServerState) :
    (applySyncCalls s l).wa = s.wa := by
  induction l generalizing s with
  | nil => rfl
  | cons b t ih => exact ih (setSyncRunning s b)

/-- C9: every request to `/ping` — any method, any configuration —
yields status 200 with `ok:true` and `pong:true`; the handler has no
other outcome. -/
theorem ping_always_pong (method : String) :
    handlePing method = ⟨200, true, true⟩ :=
  rfl

/-- C1: a POST to `/send` with no bound client, or a bound client
reporting disconnected, yields 503 with `ok:false`, for every request
body outcome (malformed JSON included) and with no Store call: the
dependency check precedes body decoding. -/
theorem send_no_client_503 (env : SendEnv)
    (h : env.wa = none ∨ ∃ c, env.wa = some c ∧ c.isConnected = false) :
    handleSend env "POST" =
      ⟨503, .resp ⟨false, "", "WhatsApp not connected"⟩, []⟩ := by
  rcases h with h | ⟨c, h, hc⟩
  · simp [handleSend, h]
  · simp [handleSend, h, hc]

theorem send_no_client_503_witness :
    handleSend ⟨none, dbStub, .error "unexpected end of JSON input",
                parseStub, 0⟩ "POST" =
      ⟨503, .resp ⟨false, "", "WhatsApp not connected"⟩, []⟩ :=
  send_no_client_503 _ (Or.inl rfl)

/-- C5: `Stop` on a never-started server (`s.server == nil`) is a no-op
returning success for every deadline and shutdown oracle, and `Stop`
never mutates the server state, so any number of repeated `Stop` calls
returns the same result as the first. -/
theorem stop_noop_idempotent (s : ServerState) (d : Nat)
    (r : Option String) (h : s.server = none) :
    stop s d r = (none, [], s) ∧
    (∀ t : ServerState, ∀ e f, (stop t e f).2.2 = t) ∧
    (∀ t : ServerState, ∀ e f, stop (stop t e f).2.2 e f = stop t e f) := by
  refine ⟨by simp [stop, h], fun t e f => ?_, fun t e f => ?_⟩ <;>
    cases ht : t.server <;> simp [stop, ht]

theorem stop_noop_idempotent_witness :
    stop serverCreated 5 none = (none, [], serverCreated) :=
  (stop_noop_idempotent serverCreated 5 none rfl).1

/-- C6: when the Store's `ListChats` sub-query inside `/status` fails,
the handler still answers 200 with `ok:true`, reporting a chat count of
zero. -/
theorem status_chat_count_degrades (s : ServerState) (u e : String)
    (h : s.db.listChats "" 100000 = .error e) :
    (handleStatus s u "GET").status = 200 ∧
    (handleStatus s u "GET").body =
      .resp ⟨true, s.syncRunning, waConnectedOf s.wa, 0,
             (match s.db.countMessages with | .ok n => n | .error _ => 0),
             u, s.db.hasFTS⟩ := by
  constructor <;> simp [handleStatus, h]

theorem status_chat_count_degrades_witness :
    (handleStatus ⟨"a", dbChatsFail, none, false, none⟩ "1s" "GET").status
        = 200 ∧
    (handleStatus ⟨"a", dbChatsFail, none, false, none⟩ "1s" "GET").body
        = .resp ⟨true, false, false, 0, 0, "1s", false⟩ :=
  status_chat_count_degrades ⟨"a", dbChatsFail, none, false, none⟩
    "1s" "db is locked" rfl

/-- C2 counterexample: on a freshly created server, a failed `Start`
returns the listen error, but the server does NOT remain in the Created
state: `s.server` has already been assigned (the code sets it before
`net.Listen`), so a subsequent `Stop` is not the unstarted no-op — it
takes the shutdown path (logging and calling `Shutdown`). -/
theorem start_fail_not_created :
    (start serverCreated (.error "address already in use")).1 =
      .error "listen 127.0.0.1:5555: address already in use" ∧
    (start serverCreated (.error "address already in use")).2.2.server
      ≠ none ∧
    (stop (start serverCreated (.error "address already in use")).2.2
        0 none).2.1 = [.logStopping, .shutdown] := by
  refine ⟨rfl, ?_, rfl⟩
  simp [start, serverCreated, stop]

/-- C2 amended: if binding fails, `Start` returns the wrapped error
synchronously and never begins serving; however the server handle is
assigned before the bind is attempted, so the server leaves the Created
state, and a subsequent `Stop` goes through the graceful-shutdown path
(log + `Shutdown`) instead of the unstarted no-op — still returning
success, because shutting down a never-served `http.Server` yields nil
(shutdown oracle `none`). -/
theorem start_fail_behavior (s : ServerState) (e : String) (d : Nat)
    (h : s.server = none) :
    (start s (.error e)).1 = .error ("listen " ++ s.addr ++ ": " ++ e) ∧
    (start s (.error e)).2.1 = [] ∧
    (start s (.error e)).2.2 = { s with server := some () } ∧
    stop (start s (.error e)).2.2 d none =
      (none, [.logStopping, .shutdown], { s with server := some () }) := by
  refine ⟨rfl, rfl, rfl, ?_⟩
  simp [start, stop]

theorem start_fail_behavior_witness :
    (start serverCreated (.error "eaddrinuse")).1 =
      .error ("listen " ++ serverCreated.addr ++ ": " ++ "eaddrinuse") ∧
    (start serverCreated (.error "eaddrinuse")).2.1 = [] ∧
    (start serverCreated (.error "eaddrinuse")).2.2 =
      { serverCreated with server := some () } ∧
    stop (start serverCreated (.error "eaddrinuse")).2.2 3 none =
      (none, [.logStopping, .shutdown],
       { serverCreated with server := some () }) :=
  start_fail_behavior serverCreated "eaddrinuse" 3 rfl

/-- C7: after any sequence of `SetSyncRunning` calls on a freshly
constructed server, `/status` reports `sync_running` equal to the most
recently passed boolean (false if never set), and `wa_connected` equal
to the bound client's `IsConnected()` — false whenever no client is
bound. -/
theorem status_reflects_sync_and_connection (opts : ServerOptions)
    (s0 : ServerState) (l : List Bool) (u : String)
    (h : newServer opts = .ok s0) :
    ∃ r, (handleStatus (applySyncCalls s0 l) u "GET").body = .resp r ∧
      r.syncRunning = l.getLast?.getD false ∧
      r.waConnected = waConnectedOf (applySyncCalls s0 l).wa ∧
      ((applySyncCalls s0 l).wa = none → r.waConnected = false) ∧
      (∀ c, (applySyncCalls s0 l).wa = some c →
        r.waConnected = c.isConnected) := by
  have hsync0 : s0.syncRunning = false := by
    cases hdb : opts.db with
    | none => simp [newServer, hdb] at h
    | some db =>
      simp [newServer, hdb] at h
      rw [← h]
  refine ⟨⟨true, (applySyncCalls s0 l).syncRunning,
          waConnectedOf (applySyncCalls s0 l).wa,
          (match (applySyncCalls s0 l).db.listChats "" 100000 with
           | .ok chats => (chats.length : Int)
           | .error _ => 0),
          (match (applySyncCalls s0 l).db.countMessages with
           | .ok n => n
           | .error _ => 0),
          u, (applySyncCalls s0 l).db.hasFTS⟩, rfl, ?_, rfl, ?_, ?_⟩
  · show (applySyncCalls s0 l).syncRunning = _
    rw [applySyncCalls_syncRunning, hsync0]
  · intro hwa
    rw [hwa]
    rfl
  · intro c hwa
    rw [hwa]
    rfl

theorem status_reflects_sync_witness :
    ∃ r, (handleStatus
        (applySyncCalls serverCreated [true, false, true]) "2s" "GET").body
          = .resp r ∧
      r.syncRunning = [true, false, true].getLast?.getD false ∧
      r.waConnected =
        waConnectedOf (applySyncCalls serverCreated [true, false, true]).wa ∧
      ((applySyncCalls serverCreated [true, false, true]).wa = none →
        r.waConnected = false) ∧
      (∀ c, (applySyncCalls serverCreated [true, false, true]).wa = some c →
        r.waConnected = c.isConnected) :=
  status_reflects_sync_and_connection
    ⟨"127.0.0.1:5555", some dbStub, none⟩ serverCreated
    [true, false, true] "2s" rfl

/-- C8: `/messages` without a `chat_jid` answers 400 and never touches
the Store; with one, an unparsable `before`/`after` bound is silently
dropped (the request proceeds and succeeds with 200 when the Store
succeeds), and an absent or non-positive `limit` falls back to the
default 50. -/
theorem messages_param_handling (db : StoreBehavior)
    (parse : String → Option Nat) (fmt : Nat → String) (q : MessagesQuery) :
    (q.chatJID = "" →
      handleMessages db parse fmt q "GET" =
        ⟨400, .env ⟨false, "chat_jid is required"⟩, []⟩) ∧
    (q.chatJID ≠ "" →
      (parse q.before = none → (messagesParamsOf parse q).before = none) ∧
      (parse q.after = none → (messagesParamsOf parse q).after = none) ∧
      ((atoi q.limit = none ∨ ∃ l, atoi q.limit = some l ∧ l ≤ 0) →
        (messagesParamsOf parse q).limit = 50) ∧
      (∀ msgs, db.listMessages (messagesParamsOf parse q) = .ok msgs →
        handleMessages db parse fmt q "GET" =
          ⟨200, .resp (msgs.map (toMessageJSON fmt)),
           [.listMessages (messagesParamsOf parse q)]⟩)) := by
  constructor
  · intro h
    simp [handleMessages, h]
  · intro hne
    refine ⟨?_, ?_, ?_, ?_⟩
    · intro hp
      by_cases hb : q.before = "" <;> simp [messagesParamsOf, hb, hp]
    · intro hp
      by_cases hb : q.after = "" <;> simp [messagesParamsOf, hb, hp]
    · intro hl
      rcases hl with hl | ⟨l, hl, hle⟩
      · simp [messagesParamsOf, hl]
      · simp [messagesParamsOf, hl, show ¬l > 0 from not_lt.mpr hle]
    · intro msgs hm
      simp [handleMessages, hne, hm]

theorem messages_param_handling_witness :
    handleMessages dbStub (fun _ => none) (fun _ => "")
        ⟨"", "", "", ""⟩ "GET" =
      ⟨400, .env ⟨false, "chat_jid is required"⟩, []⟩ ∧
    handleMessages dbStub (fun _ => none) (fun _ => "")
        ⟨"123@s.whatsapp.net", "0", "not-a-date", ""⟩ "GET" =
      ⟨200, .resp [],
       [.listMessages (messagesParamsOf (fun _ => none)
          ⟨"123@s.whatsapp.net", "0", "not-a-date", ""⟩)]⟩ ∧
    (messagesParamsOf (fun _ => none)
      ⟨"123@s.whatsapp.net", "0", "not-a-date", ""⟩).limit = 50 ∧
    (messagesParamsOf (fun _ => none)
      ⟨"123@s.whatsapp.net", "0", "not-a-date", ""⟩).before = none := by
  refine ⟨(messages_param_handling dbStub (fun _ => none) (fun _ => "")
            ⟨"", "", "", ""⟩).1 rfl, ?_, ?_, ?_⟩
  · exact ((messages_param_handling dbStub (fun _ => none) (fun _ => "")
      ⟨"123@s.whatsapp.net", "0", "not-a-date", ""⟩).2 (by decide)).2.2.2
      [] rfl
  · exact ((messages_param_handling dbStub (fun _ => none) (fun _ => "")
      ⟨"123@s.whatsapp.net", "0", "not-a-date", ""⟩).2 (by decide)).2.2.1
      (Or.inr ⟨0, by decide, by decide⟩)
  · exact ((messages_param_handling dbStub (fun _ => none) (fun _ => "")
      ⟨"123@s.whatsapp.net", "0", "not-a-date", ""⟩).2 (by decide)).1 rfl

/-- C10 (Store modelled from the spec): `/status` computes `chats_count`
as the length of `ListChats("", 100000)`'s result, so against a Store
holding `allChats` it reports `min |allChats| 100000` — equal to the
true total exactly when at most 100000 chats are stored — and an error
from `CountMessages` is swallowed, degrading `messages_count` to 0. -/
theorem status_chats_count_capped (s : ServerState) (allChats : List Chat)
    (u e : String)
    (hl : s.db.listChats = specListChats allChats)
    (hc : s.db.countMessages = .error e) :
    (handleStatus s u "GET").calls =
      [.listChats "" 100000, .countMessages, .hasFTS] ∧
    (handleStatus s u "GET").body =
      .resp ⟨true, s.syncRunning, waConnectedOf s.wa,
             ((min 100000 allChats.length : Nat) : Int), 0, u,
             s.db.hasFTS⟩ ∧
    (((min 100000 allChats.length : Nat) : Int) = (allChats.length : Int)
      ↔ allChats.length ≤ 100000) := by
  have hres : s.db.listChats "" 100000 = .ok (allChats.take 100000) := by
    rw [hl]
    rfl
  refine ⟨by simp [handleStatus], ?_, ?_⟩
  · simp [handleStatus, hres, hc, List.length_take]
  · rw [Nat.cast_inj]
    omega

theorem status_chats_count_capped_witness :
    (handleStatus ⟨"a", dbSpecOneChat, none, false, none⟩ "3s" "GET").calls
      = [.listChats "" 100000, .countMessages, .hasFTS] ∧
    (handleStatus ⟨"a", dbSpecOneChat, none, false, none⟩ "3s" "GET").body
      = .resp ⟨true, false, false, 1, 0, "3s", false⟩ ∧
    (((min 100000 ([⟨"123@s.whatsapp.net", "dm", "A", 0⟩] : List Chat).length
        : Nat) : Int)
      = (([⟨"123@s.whatsapp.net", "dm", "A", 0⟩] : List Chat).length : Int)
      ↔ ([⟨"123@s.whatsapp.net", "dm", "A", 0⟩] : List Chat).length
          ≤ 100000) :=
  status_chats_count_capped ⟨"a", dbSpecOneChat, none, false, none⟩
    [⟨"123@s.whatsapp.net", "dm", "A", 0⟩] "3s" "no such table" rfl rfl

/-- C3: on a successful network send, the Chat upsert strictly precedes
the Message upsert in the handler's Store-call trace, and upsert
failures are never surfaced: the response stays 200 `ok:true` with the
message id for every combination of `UpsertChat`/`UpsertMessage`
results (the handler's outcome is independent of those oracles). -/
theorem send_upserts_ordered_best_effort (env : SendEnv) (c : WABehavior)
    (req : SendRequest) (jid : JID) (msgID : String)
    (hwa : env.wa = some c) (hconn : c.isConnected = true)
    (hbody : env.body = .ok req)
    (hto : resolvedTo req ≠ "")
    (hmsg : (trimSpace req.message) ≠ "")
    (hparse : env.parseUserOrJID (resolvedTo req) = .ok jid)
    (hsend : c.sendText jid req.message = .ok msgID) :
    handleSend env "POST" =
      ⟨200, .resp ⟨true, msgID, ""⟩,
       [.upsertChat jid.render (chatKindOf jid)
          (c.resolveChatName jid "") env.now,
        .upsertMessage ⟨jid.render, c.resolveChatName jid "", msgID, "",
          "me", env.now, true, req.message⟩]⟩ ∧
    (∀ f g, handleSend
        { env with db :=
            { env.db with upsertChat := f, upsertMessage := g } } "POST"
      = handleSend env "POST") := by
  constructor
  · simp [handleSend, handleSendBody, hwa, hconn, hbody, hto, hmsg,
          hparse, hsend]
  · intro f g
    cases env
    rfl

theorem send_upserts_ordered_witness :
    handleSend sendEnvMock "POST" =
      ⟨200, .resp ⟨true, "test_msg_id", ""⟩,
       [.upsertChat "123456789@s.whatsapp.net" "dm" "Test Chat" 7,
        .upsertMessage ⟨"123456789@s.whatsapp.net", "Test Chat",
          "test_msg_id", "", "me", 7, true, "Hello from RPC!"⟩]⟩ ∧
    handleSend { sendEnvMock with db :=
        { sendEnvMock.db with
            upsertChat := fun _ _ _ _ => some "disk full",
            upsertMessage := fun _ => some "disk full" } } "POST"
      = handleSend sendEnvMock "POST" :=
  ⟨(send_upserts_ordered_best_effort sendEnvMock waMock
      ⟨"123456789", "Hello from RPC!", ""⟩ ⟨"123456789", "s.whatsapp.net"⟩
      "test_msg_id" rfl rfl rfl (by decide) (by decide) rfl rfl).1,
   (send_upserts_ordered_best_effort sendEnvMock waMock
      ⟨"123456789", "Hello from RPC!", ""⟩ ⟨"123456789", "s.whatsapp.net"⟩
      "test_msg_id" rfl rfl rfl (by decide) (by decide) rfl rfl).2
     (fun _ _ _ _ => some "disk full") (fun _ => some "disk full")⟩

/-- C4: every successful `/send` upserts a Message marked from-me with
sender name `"me"` and empty sender id, classifies the Chat kind from
the recipient JID's shape (group server → `"group"`, broadcast list →
`"broadcast"`, otherwise `"dm"`), and answers 200 with `message_id`
exactly the id returned by `SendText`. -/
theorem send_success_fields (env : SendEnv) (c : WABehavior)
    (req : SendRequest) (jid : JID) (msgID : String)
    (hwa : env.wa = some c) (hconn : c.isConnected = true)
    (hbody : env.body = .ok req)
    (hto : resolvedTo req ≠ "")
    (hmsg : (trimSpace req.message) ≠ "")
    (hparse : env.parseUserOrJID (resolvedTo req) = .ok jid)
    (hsend : c.sendText jid req.message = .ok msgID) :
    (handleSend env "POST").status = 200 ∧
    (handleSend env "POST").body = .resp ⟨true, msgID, ""⟩ ∧
    (handleSend env "POST").calls =
      [.upsertChat jid.render (chatKindOf jid)
         (c.resolveChatName jid "") env.now,
       .upsertMessage ⟨jid.render, c.resolveChatName jid "", msgID, "",
         "me", env.now, true, req.message⟩] ∧
    (jid.server = GroupServer → chatKindOf jid = "group") ∧
    (jid.server ≠ GroupServer → jid.isBroadcastList = true →
      chatKindOf jid = "broadcast") ∧
    (jid.server ≠ GroupServer → jid.isBroadcastList = false →
      chatKindOf jid = "dm") := by
  refine ⟨?_, ?_, ?_, ?_, ?_, ?_⟩
  · simp [handleSend, handleSendBody, hwa, hconn, hbody, hto, hmsg,
          hparse, hsend]
  · simp [handleSend, handleSendBody, hwa, hconn, hbody, hto, hmsg,
          hparse, hsend]
  · simp [handleSend, handleSendBody, hwa, hconn, hbody, hto, hmsg,
          hparse, hsend]
  · intro hg
    simp [chatKindOf, hg]
  · intro hg hb
    simp [chatKindOf, hg, hb]
  · intro hg hb
    simp [chatKindOf, hg, hb]

theorem send_success_fields_witness :
    (handleSend sendEnvMock "POST").status = 200 ∧
    (handleSend sendEnvMock "POST").body =
      .resp ⟨true, "test_msg_id", ""⟩ ∧
    (handleSend sendEnvMock "POST").calls =
      [.upsertChat "123456789@s.whatsapp.net" "dm" "Test Chat" 7,
       .upsertMessage ⟨"123456789@s.whatsapp.net", "Test Chat",
         "test_msg_id", "", "me", 7, true, "Hello from RPC!"⟩] ∧
    chatKindOf ⟨"123456789", "s.whatsapp.net"⟩ = "dm" := by
  have h := send_success_fields sendEnvMock waMock
    ⟨"123456789", "Hello from RPC!", ""⟩ ⟨"123456789", "s.whatsapp.net"⟩
    "test_msg_id" rfl rfl rfl (by decide) (by decide) rfl rfl
  exact ⟨h.1, h.2.1, h.2.2.1, h.2.2.2.2.2 (by decide) (by decide)⟩

end Wacli
